import Mathlib

/-!
Verification of the BVC Stream Deck plugin's connection manager
(`src/ws-manager.ts`).  The manager keeps one WebSocket session to the
voice-chat application, mirrors the remote state (connected / input mute /
output mute / recording) into a tri-state snapshot, notifies listeners of
changes, sends commands with an optional one-shot failure callback, and
recovers from drops with capped exponential backoff plus a heartbeat.

The embedding below translates the manager's fields and handlers into pure
Lean functions; timers are modelled by boolean "a timer is pending" flags,
the socket by an `Option` of its ready state, callbacks by numeric ids, and
an emitted notification or transmitted frame by an explicit output list.
-/

namespace Bvc

/-- Default host (`DEFAULT_HOST`, ws-manager.ts line 7). -/
def DEFAULT_HOST : String := "127.0.0.1"

/-- Default port (`DEFAULT_PORT`, line 8). -/
def DEFAULT_PORT : Nat := 9595

/-- Reconnect backoff base in ms (`RECONNECT_BASE_MS`, line 9). -/
def RECONNECT_BASE_MS : Nat := 1000

/-- Reconnect backoff ceiling in ms (`RECONNECT_MAX_MS`, line 10). -/
def RECONNECT_MAX_MS : Nat := 30000

/-- Heartbeat interval in ms (`PING_INTERVAL_MS`, line 11). -/
def PING_INTERVAL_MS : Nat := 15000

/-- Stability window in ms (`STABLE_THRESHOLD_MS`, line 12). -/
def STABLE_THRESHOLD_MS : Nat := 30000

/-- JSON values as far as the manager's duck-typed field checks can tell
them apart: booleans and strings are inspected for their value, everything
else only matters by not being a boolean or an expected string. -/
inductive JVal where
  | jbool (b : Bool)
  | jstr (s : String)
  | jnum (n : Int)
  | jnull
  | jobj
  deriving DecidableEq, Repr

/-- The `data` object of an inbound frame, restricted to the five fields
`handleMessage` (lines 182-231) ever inspects; `none` means the field is
absent (or `undefined`). -/
structure InData where
  pong : Option JVal := none
  device : Option JVal := none
  muted : Option JVal := none
  deafened : Option JVal := none
  recording : Option JVal := none
  deriving DecidableEq, Repr

/-- `typeof x === "boolean"` on an optional field: the boolean value when
the field is present and a boolean, `none` otherwise. -/
def asBool : Option JVal → Option Bool
  | some (.jbool b) => some b
  | _ => none

/-- The two device identifiers of the wire protocol. -/
inductive Device where
  | input
  | output
  deriving DecidableEq, Repr

/-- The strict string comparisons `data.device === "input"` /
`=== "output"` (lines 189, 197), collapsed into an `Option Device`. -/
def deviceOf (d : InData) : Option Device :=
  match d.device with
  | some (.jstr "input") => some .input
  | some (.jstr "output") => some .output
  | _ => none

/-- The manager's state snapshot (`BvcState`, types.ts): `none` is the
tri-state `null` ("unknown"). -/
structure BvcState where
  connected : Bool
  inputMuted : Option Bool
  outputMuted : Option Bool
  recording : Option Bool
  deriving DecidableEq, Repr

/-- Typed change notifications (`BvcStateEvent`, types.ts). -/
inductive BvcStateEvent where
  | connectionChanged (connected : Bool)
  | inputMuteChanged (muted : Option Bool)
  | outputMuteChanged (muted : Option Bool)
  | recordingChanged (recording : Option Bool)
  deriving DecidableEq, Repr

/-- Diff-update of `inputMuted` (lines 190-193 and 209-212): update the
field and emit exactly one notification when the value differs, do nothing
otherwise. -/
def applyInput (st : BvcState) (b : Bool) : BvcState × List BvcStateEvent :=
  if st.inputMuted = some b then (st, [])
  else ({ st with inputMuted := some b }, [.inputMuteChanged (some b)])

/-- Diff-update of `outputMuted` (lines 198-201 and 213-216). -/
def applyOutput (st : BvcState) (b : Bool) : BvcState × List BvcStateEvent :=
  if st.outputMuted = some b then (st, [])
  else ({ st with outputMuted := some b }, [.outputMuteChanged (some b)])

/-- Diff-update of `recording` (lines 217-220 and 226-229). -/
def applyRecording (st : BvcState) (b : Bool) : BvcState × List BvcStateEvent :=
  if st.recording = some b then (st, [])
  else ({ st with recording := some b }, [.recordingChanged (some b)])

/-- The full-snapshot branch (lines 206-222): the three diff-updates in
source order, events concatenated in that order. -/
def applyFull (st : BvcState) (m dfn r : Bool) : BvcState × List BvcStateEvent :=
  let p1 := applyInput st m
  let p2 := applyOutput p1.1 dfn
  let p3 := applyRecording p2.1 r
  (p3.1, p1.2 ++ p2.2 ++ p3.2)

/-- `handleMessage` (lines 182-231): the early-return chain over the duck
typed checks, in source order — pong first, then the two single-device
branches, then the full snapshot, then the bare recording boolean. -/
def handleMessage (st : BvcState) (d : InData) : BvcState × List BvcStateEvent :=
  if d.pong = some (.jbool true) then (st, [])
  else
    match deviceOf d, asBool d.muted, asBool d.deafened, asBool d.recording with
    | some .input, some b, _, _ => applyInput st b
    | some .output, some b, _, _ => applyOutput st b
    | _, some m, some dfn, some r => applyFull st m dfn r
    | _, _, _, some r => applyRecording st r
    | _, _, _, _ => (st, [])

/-- Modelled from the spec's words (4.4): the recognized inbound shapes,
as a tagged variant with the spec's priority order baked into `classify`. -/
inductive Shape where
  | pongAck
  | deviceDelta (device : Device) (muted : Bool)
  | fullSnapshot (muted deafened recording : Bool)
  | recordingDelta (recording : Bool)
  | unrecognized
  deriving DecidableEq, Repr

/-- Modelled from the spec's words (4.4): match a payload against the
recognized shapes in priority order — (a) bare liveness acknowledgment,
(b) single-device mute delta, (c) full snapshot, (d) bare recording
boolean — returning the first match, else `unrecognized`. -/
def classify (d : InData) : Shape :=
  if d.pong = some (.jbool true) then .pongAck
  else
    match deviceOf d, asBool d.muted, asBool d.deafened, asBool d.recording with
    | some dev, some b, _, _ => .deviceDelta dev b
    | _, some m, some dfn, some r => .fullSnapshot m dfn r
    | _, _, _, some r => .recordingDelta r
    | _, _, _, _ => .unrecognized

/-- Modelled from the spec's words (4.4): the effect of each recognized
shape — a pong is a no-op, a device delta updates only that device's field,
a full snapshot updates the three fields independently with conditional
notification, a bare recording boolean updates only `recording`, and an
unrecognized payload changes nothing and emits nothing. -/
def applyShape (st : BvcState) : Shape → BvcState × List BvcStateEvent
  | .pongAck => (st, [])
  | .deviceDelta .input b => applyInput st b
  | .deviceDelta .output b => applyOutput st b
  | .fullSnapshot m dfn r => applyFull st m dfn r
  | .recordingDelta r => applyRecording st r
  | .unrecognized => (st, [])

lemma handleMessage_eq_applyShape (st : BvcState) (d : InData) :
    handleMessage st d = applyShape st (classify d) := by
  unfold handleMessage classify
  by_cases hp : d.pong = some (JVal.jbool true)
  · simp [hp, applyShape]
  · simp only [if_neg hp]
    rcases hdev : deviceOf d with _ | dev
    · rcases hm : asBool d.muted with _ | b <;>
        rcases hdf : asBool d.deafened with _ | b2 <;>
        rcases hr : asBool d.recording with _ | b3 <;>
        simp [applyShape]
    · rcases dev <;>
        rcases hm : asBool d.muted with _ | b <;>
        rcases hdf : asBool d.deafened with _ | b2 <;>
        rcases hr : asBool d.recording with _ | b3 <;>
        simp [applyShape]

lemma applyInput_fst_inputMuted (st : BvcState) (b : Bool) :
    (applyInput st b).1.inputMuted = some b := by
  unfold applyInput
  split <;> simp_all

lemma applyOutput_fst_outputMuted (st : BvcState) (b : Bool) :
    (applyOutput st b).1.outputMuted = some b := by
  unfold applyOutput
  split <;> simp_all

lemma applyRecording_fst_recording (st : BvcState) (b : Bool) :
    (applyRecording st b).1.recording = some b := by
  unfold applyRecording
  split <;> simp_all

lemma applyFull_fst (st : BvcState) (m dfn r : Bool) :
    (applyFull st m dfn r).1 =
      { st with inputMuted := some m, outputMuted := some dfn, recording := some r } := by
  rcases st with ⟨c, i, o, rc⟩
  unfold applyFull applyInput applyOutput applyRecording
  by_cases h1 : i = some m <;> by_cases h2 : o = some dfn <;> by_cases h3 : rc = some r <;>
    simp [h1, h2, h3]

lemma applyInput_idem (st : BvcState) (b : Bool) :
    applyInput (applyInput st b).1 b = ((applyInput st b).1, []) := by
  unfold applyInput
  by_cases h : st.inputMuted = some b <;> simp [h]

lemma applyOutput_idem (st : BvcState) (b : Bool) :
    applyOutput (applyOutput st b).1 b = ((applyOutput st b).1, []) := by
  unfold applyOutput
  by_cases h : st.outputMuted = some b <;> simp [h]

lemma applyRecording_idem (st : BvcState) (b : Bool) :
    applyRecording (applyRecording st b).1 b = ((applyRecording st b).1, []) := by
  unfold applyRecording
  by_cases h : st.recording = some b <;> simp [h]

lemma applyFull_idem (st : BvcState) (m dfn r : Bool) :
    applyFull (applyFull st m dfn r).1 m dfn r = ((applyFull st m dfn r).1, []) := by
  rw [applyFull_fst]
  unfold applyFull applyInput applyOutput applyRecording
  simp

lemma applyShape_idem (st : BvcState) (sh : Shape) :
    applyShape (applyShape st sh).1 sh = ((applyShape st sh).1, []) := by
  cases sh with
  | pongAck => rfl
  | deviceDelta dev b =>
      cases dev
      · exact applyInput_idem st b
      · exact applyOutput_idem st b
  | fullSnapshot m dfn r => exact applyFull_idem st m dfn r
  | recordingDelta r => exact applyRecording_idem st r
  | unrecognized => rfl

lemma applyInput_fst_connected (st : BvcState) (b : Bool) :
    (applyInput st b).1.connected = st.connected := by
  unfold applyInput
  split <;> simp

lemma applyOutput_fst_connected (st : BvcState) (b : Bool) :
    (applyOutput st b).1.connected = st.connected := by
  unfold applyOutput
  split <;> simp

lemma applyRecording_fst_connected (st : BvcState) (b : Bool) :
    (applyRecording st b).1.connected = st.connected := by
  unfold applyRecording
  split <;> simp

lemma applyShape_fst_connected (st : BvcState) (sh : Shape) :
    (applyShape st sh).1.connected = st.connected := by
  cases sh with
  | pongAck => rfl
  | deviceDelta dev b =>
      cases dev
      · exact applyInput_fst_connected st b
      · exact applyOutput_fst_connected st b
  | fullSnapshot m dfn r => rw [show applyShape st (.fullSnapshot m dfn r) = applyFull st m dfn r from rfl, applyFull_fst]
  | recordingDelta r => exact applyRecording_fst_connected st r
  | unrecognized => rfl

lemma handleMessage_fst_connected (st : BvcState) (d : InData) :
    (handleMessage st d).1.connected = st.connected := by
  rw [handleMessage_eq_applyShape]
  exact applyShape_fst_connected st (classify d)

/-! ## The manager -/

/-- Outgoing commands (`BvcCommand`, types.ts). -/
inductive BvcCommand where
  | ping
  | mute (device : Device)
  | record
  | state
  deriving DecidableEq, Repr

/-- A serialized outgoing frame: the command's own fields plus the optional
`key` field that `send` merges in (lines 81-84). -/
structure Frame where
  cmd : BvcCommand
  key : Option String
  deriving DecidableEq, Repr

/-- A parsed inbound JSON message that is an object: the two top-level
fields the message handler (lines 141-159) inspects.  A whole inbound
payload is `Option RawMsg`; `none` stands for unparsable JSON or a
non-object value. -/
structure RawMsg where
  success : Option JVal := none
  data : Option InData := none
  deriving DecidableEq, Repr

/-- Ready states of the single socket. -/
inductive SockState where
  | connecting
  | opened
  deriving DecidableEq, Repr

/-- The `WsManager` fields (lines 21-40).  Each `setTimeout` /
`setInterval` handle is modelled by a boolean "a timer is pending" flag,
and failure callbacks by numeric ids. -/
structure Manager where
  ws : Option SockState
  host : String
  port : Nat
  authenticationKey : String
  reconnectTimer : Bool
  pingTimer : Bool
  stableTimer : Bool
  awaitingPong : Bool
  backoffAttempts : Nat
  intentionalClose : Bool
  pendingErrorCallback : Option Nat
  state : BvcState
  deriving DecidableEq, Repr

/-- The manager's initial field values (lines 21-40). -/
def initManager : Manager :=
  { ws := none
    host := DEFAULT_HOST
    port := DEFAULT_PORT
    authenticationKey := ""
    reconnectTimer := false
    pingTimer := false
    stableTimer := false
    awaitingPong := false
    backoffAttempts := 0
    intentionalClose := false
    pendingErrorCallback := none
    state := { connected := false, inputMuted := none, outputMuted := none, recording := none } }

/-- `send` (lines 77-88): refuse and transmit nothing unless the socket is
`OPEN`; otherwise build the payload, merge `key` when the secret is truthy
(non-empty), register the failure callback, and transmit exactly one frame.
Returns the new manager, the boolean result, and the transmitted frames. -/
def send (m : Manager) (cmd : BvcCommand) (onError : Option Nat) :
    Manager × Bool × List Frame :=
  if m.ws ≠ some .opened then (m, false, [])
  else
    let payload : Frame :=
      { cmd := cmd
        key := if m.authenticationKey = "" then none else some m.authenticationKey }
    ({ m with pendingErrorCallback := onError }, true, [payload])

/-- `setConnected` (lines 233-236): set the flag and emit
`connectionChanged` unconditionally. -/
def setConnected (m : Manager) (c : Bool) : Manager × List BvcStateEvent :=
  ({ m with state := { m.state with connected := c } }, [.connectionChanged c])

/-- `setDisconnectedState` (lines 238-251): null each tri-state field that
is not already null, emitting one notification per changed field, in source
order. -/
def setDisconnectedState (st : BvcState) : BvcState × List BvcStateEvent :=
  let p1 : BvcState × List BvcStateEvent :=
    if st.inputMuted ≠ none then
      ({ st with inputMuted := none }, [.inputMuteChanged none])
    else (st, [])
  let p2 : BvcState × List BvcStateEvent :=
    if p1.1.outputMuted ≠ none then
      ({ p1.1 with outputMuted := none }, [.outputMuteChanged none])
    else (p1.1, [])
  let p3 : BvcState × List BvcStateEvent :=
    if p2.1.recording ≠ none then
      ({ p2.1 with recording := none }, [.recordingChanged none])
    else (p2.1, [])
  (p3.1, p1.2 ++ p2.2 ++ p3.2)

/-- The backoff delay of `scheduleReconnect` (lines 260-263):
`min(RECONNECT_BASE_MS * 2 ^ attempts, RECONNECT_MAX_MS)`.  `Math.pow` on
these magnitudes is exact in double precision up to the point where the
minimum is the ceiling anyway, so `Nat` arithmetic is faithful. -/
def reconnectDelay (attempts : Nat) : Nat :=
  min (RECONNECT_BASE_MS * 2 ^ attempts) RECONNECT_MAX_MS

/-- `scheduleReconnect` (lines 259-270): compute the capped exponential
delay from the current attempt counter, increment the counter, and arm the
reconnect timer with that delay (returned alongside the manager). -/
def scheduleReconnect (m : Manager) : Manager × Nat :=
  let delay := reconnectDelay m.backoffAttempts
  ({ m with reconnectTimer := true, backoffAttempts := m.backoffAttempts + 1 }, delay)

/-- `stopPing` (lines 287-293). -/
def stopPing (m : Manager) : Manager :=
  { m with pingTimer := false, awaitingPong := false }

/-- `stopStableTimer` (lines 301-306). -/
def stopStableTimer (m : Manager) : Manager :=
  { m with stableTimer := false }

/-- The message handler (lines 141-159) on one inbound payload: unparsable
or non-object input is dropped; `success === false` invokes and clears the
pending failure callback; a missing `data` field is ignored; otherwise the
`data` object goes to `handleMessage`.  Returns the new manager, the
emitted notifications, and the list of invoked callback ids. -/
def onMessage (m : Manager) (msg : Option RawMsg) :
    Manager × List BvcStateEvent × List Nat :=
  match msg with
  | none => (m, [], [])
  | some r =>
    if r.success = some (.jbool false) then
      ({ m with pendingErrorCallback := none }, [], m.pendingErrorCallback.toList)
    else
      match r.data with
      | none => (m, [], [])
      | some d =>
        let p := handleMessage m.state d
        ({ m with state := p.1 }, p.2, [])

/-- `connect` (lines 90-108, 161), run to completion: cancel any pending
reconnect timer; if a socket still exists, mark `intentionalClose`, call
`terminate()` on it and drop the handle (its close event, if any, is
emitted asynchronously — delivered later as a separate `closeEvt`
operation); then reset `intentionalClose` to `false` and install the new
connecting socket. -/
def connectStep (m : Manager) : Manager :=
  let m1 := { m with reconnectTimer := false }
  let m2 :=
    if m1.ws.isSome then { m1 with intentionalClose := true, ws := none }
    else m1
  { m2 with intentionalClose := false, ws := some .connecting }

/-- The `open` handler (lines 114-120), firing on the connecting socket:
mark it open, `setConnected(true)`, send the `state` command (with no
failure callback, so `pendingErrorCallback` is set to `null`), start the
heartbeat and the stability timer. -/
def openStep (m : Manager) : Manager × List BvcStateEvent × List Frame :=
  match m.ws with
  | some .connecting =>
    let m1 := { m with ws := some SockState.opened }
    let p2 := setConnected m1 true
    let p3 := send p2.1 .state none
    let m4 := { p3.1 with awaitingPong := false, pingTimer := true }
    let m5 := { m4 with stableTimer := true }
    (m5, p2.2, p3.2.2)
  | _ => (m, [], [])

/-- The body of the `close` handler (lines 122-135): stop the heartbeat and
the stability timer, drop the socket handle, and — when the store believed
it was connected — mark disconnected and null the tri-state fields; finally
hand off to `scheduleReconnect` unless the close was intentional. -/
def closeBody (m : Manager) : Manager × List BvcStateEvent :=
  let m1 := stopStableTimer (stopPing { m with ws := none })
  let p2 : Manager × List BvcStateEvent :=
    if m1.state.connected then
      let q := setConnected m1 false
      let r := setDisconnectedState q.1.state
      ({ q.1 with state := r.1 }, q.2 ++ r.2)
    else (m1, [])
  if p2.1.intentionalClose then p2
  else ((scheduleReconnect p2.1).1, p2.2)

/-- A `close` event can only be delivered while a socket handle exists. -/
def closeStep (m : Manager) : Manager × List BvcStateEvent :=
  match m.ws with
  | none => (m, [])
  | some _ => closeBody m

/-- `disconnect` (lines 164-180): mark intentional, cancel the reconnect
timer, stop the heartbeat and stability timers, terminate the socket, and
tear down the connected state if it was set. -/
def disconnectStep (m : Manager) : Manager × List BvcStateEvent :=
  let m1 := { m with intentionalClose := true, reconnectTimer := false }
  let m2 := stopStableTimer (stopPing m1)
  let m3 := { m2 with ws := none }
  if m3.state.connected then
    let q := setConnected m3 false
    let r := setDisconnectedState q.1.state
    ({ q.1 with state := r.1 }, q.2 ++ r.2)
  else (m3, [])

/-- What one heartbeat tick did. -/
inductive PingTickAction where
  | terminated
  | pingSent
  | idle
  deriving DecidableEq, Repr

/-- One tick of the heartbeat interval (lines 274-284): if a pong is still
outstanding, terminate the socket and return (the close event follows
asynchronously); otherwise, if the socket is open, mark a pong outstanding
and send a ping control frame. -/
def pingTick (m : Manager) : Manager × PingTickAction :=
  if m.awaitingPong then (m, .terminated)
  else if m.ws = some SockState.opened then
    ({ m with awaitingPong := true }, .pingSent)
  else (m, .idle)

/-- The `pong` handler (lines 137-139): clear the outstanding flag. -/
def pongStep (m : Manager) : Manager :=
  { m with awaitingPong := false }

/-- The stability timer firing (lines 296-298): reset the attempt counter. -/
def stableTimerFire (m : Manager) : Manager :=
  { m with backoffAttempts := 0 }

/-- The operations that can act on the manager: the two explicit calls
(`connect`, `disconnect`, `send`), the socket events (`open`, `close`,
`message`, `pong`), and the two timers firing. -/
inductive Op where
  | connect
  | disconnect
  | openEvt
  | closeEvt
  | frame (msg : Option RawMsg)
  | pongEvt
  | sendCmd (cmd : BvcCommand) (onError : Option Nat)
  | pingTickEvt
  | stableFireEvt
  deriving DecidableEq, Repr

/-- Messages are delivered only by an open socket. -/
def frameStep (m : Manager) (msg : Option RawMsg) :
    Manager × List BvcStateEvent × List Nat :=
  if m.ws = some SockState.opened then onMessage m msg else (m, [], [])

/-- One operation applied to the manager (outputs discarded). -/
def step (m : Manager) : Op → Manager
  | .connect => connectStep m
  | .disconnect => (disconnectStep m).1
  | .openEvt => (openStep m).1
  | .closeEvt => (closeStep m).1
  | .frame msg => (frameStep m msg).1
  | .pongEvt => pongStep m
  | .sendCmd cmd onError => (send m cmd onError).1
  | .pingTickEvt => (pingTick m).1
  | .stableFireEvt => stableTimerFire m

/-- Run a sequence of operations from the freshly constructed manager. -/
def run (ops : List Op) : Manager :=
  ops.foldl step initManager

/-! ## The disconnected-implies-unknown invariant -/

/-- The spec's invariant together with the auxiliary fact making it
inductive: an open socket implies the store believes it is connected. -/
def Inv (m : Manager) : Prop :=
  (m.state.connected = false →
    m.state.inputMuted = none ∧ m.state.outputMuted = none ∧ m.state.recording = none) ∧
  (m.ws = some SockState.opened → m.state.connected = true)

lemma setDisconnectedState_fst (st : BvcState) :
    (setDisconnectedState st).1 =
      { st with inputMuted := none, outputMuted := none, recording := none } := by
  rcases st with ⟨c, i, o, r⟩
  unfold setDisconnectedState
  rcases i <;> rcases o <;> rcases r <;> simp

lemma inv_connectStep (m : Manager) (h : Inv m) : Inv (connectStep m) := by
  obtain ⟨h1, h2⟩ := h
  unfold connectStep
  by_cases hw : m.ws.isSome <;> simp only [hw, if_pos, if_neg, Bool.false_eq_true] <;>
    exact ⟨h1, by intro hx; simp at hx⟩

lemma inv_closeBody (m : Manager) (h : Inv m) : Inv (closeBody m).1 := by
  obtain ⟨h1, h2⟩ := h
  unfold closeBody stopPing stopStableTimer setConnected
  by_cases hc : m.state.connected <;>
    by_cases hi : m.intentionalClose <;>
    simp only [hc, hi, if_pos, if_neg, Bool.false_eq_true, setDisconnectedState_fst,
      scheduleReconnect] <;>
    constructor <;> intro hx <;> simp_all

lemma inv_closeStep (m : Manager) (h : Inv m) : Inv (closeStep m).1 := by
  unfold closeStep
  cases hw : m.ws with
  | none => exact h
  | some s => exact inv_closeBody m h

lemma inv_disconnectStep (m : Manager) (h : Inv m) : Inv (disconnectStep m).1 := by
  obtain ⟨h1, h2⟩ := h
  unfold disconnectStep stopPing stopStableTimer setConnected
  by_cases hc : m.state.connected <;>
    simp only [hc, if_pos, if_neg, Bool.false_eq_true, setDisconnectedState_fst] <;>
    constructor <;> intro hx <;> simp_all

lemma inv_openStep (m : Manager) (h : Inv m) : Inv (openStep m).1 := by
  obtain ⟨h1, h2⟩ := h
  unfold openStep setConnected send
  cases hw : m.ws with
  | none => exact ⟨h1, h2⟩
  | some s =>
    cases s with
    | connecting =>
        constructor <;> intro hx <;> simp_all
    | opened => exact ⟨h1, h2⟩

lemma inv_frameStep (m : Manager) (msg : Option RawMsg) (h : Inv m) :
    Inv (frameStep m msg).1 := by
  obtain ⟨h1, h2⟩ := h
  unfold frameStep
  by_cases hw : m.ws = some SockState.opened
  · have hc : m.state.connected = true := h2 hw
    simp only [hw, if_pos]
    cases msg with
    | none => exact ⟨h1, h2⟩
    | some r =>
      unfold onMessage
      by_cases hs : r.success = some (JVal.jbool false)
      · simp only [hs, if_pos]
        exact ⟨h1, h2⟩
      · simp only [hs, if_neg, Bool.false_eq_true]
        cases hd : r.data with
        | none => exact ⟨h1, h2⟩
        | some d =>
          have hcc := handleMessage_fst_connected m.state d
          constructor <;> intro hx <;> simp_all
  · simp only [hw, if_neg, Bool.false_eq_true]
    exact ⟨h1, h2⟩

lemma inv_send (m : Manager) (cmd : BvcCommand) (onError : Option Nat) (h : Inv m) :
    Inv (send m cmd onError).1 := by
  obtain ⟨h1, h2⟩ := h
  unfold send
  split
  · exact ⟨h1, h2⟩
  · exact ⟨h1, h2⟩

lemma inv_pingTick (m : Manager) (h : Inv m) : Inv (pingTick m).1 := by
  obtain ⟨h1, h2⟩ := h
  unfold pingTick
  split
  · exact ⟨h1, h2⟩
  · split
    · exact ⟨h1, fun _ => h2 (by assumption)⟩
    · exact ⟨h1, h2⟩

lemma inv_step (m : Manager) (op : Op) (h : Inv m) : Inv (step m op) := by
  cases op with
  | connect => exact inv_connectStep m h
  | disconnect => exact inv_disconnectStep m h
  | openEvt => exact inv_openStep m h
  | closeEvt => exact inv_closeStep m h
  | frame msg => exact inv_frameStep m msg h
  | pongEvt => exact ⟨h.1, h.2⟩
  | sendCmd cmd onError => exact inv_send m cmd onError h
  | pingTickEvt => exact inv_pingTick m h
  | stableFireEvt => exact ⟨h.1, h.2⟩

lemma inv_initManager : Inv initManager := by
  refine ⟨fun _ => ⟨rfl, rfl, rfl⟩, fun hx => ?_⟩
  simp [initManager] at hx

lemma inv_run (ops : List Op) : Inv (run ops) := by
  have hgen : ∀ (l : List Op) (m : Manager), Inv m → Inv (l.foldl step m) := by
    intro l
    induction l with
    | nil => intro m hm; exact hm
    | cons a l ih => intro m hm; exact ih (step m a) (inv_step m a hm)
  exact hgen ops initManager inv_initManager

/-! ## Settings resolution -/

/-- A raw configuration value as `parsePort` can receive it: absent
(`undefined`), a string, or a number.  Numbers are modelled as integers;
the settings layer only ever delivers strings, and the number values this
model cannot express (`NaN`, infinities, fractions) either fail
`Number.isFinite` or add no behaviour beyond the guarded range check. -/
inductive SettingVal where
  | undef
  | str (s : String)
  | num (n : Int)
  deriving DecidableEq, Repr

/-- The ASCII whitespace characters JavaScript trimming removes (the
Unicode space classes add nothing for the inputs considered here). -/
def isJsSpace (c : Char) : Bool :=
  c == ' ' || c == '\t' || c == '\n' || c == '\r' || c == '\x0b' || c == '\x0c'

/-- JavaScript `String.prototype.trim`: drop whitespace at both ends. -/
def jsTrim (s : String) : String :=
  ⟨((s.toList.dropWhile isJsSpace).reverse.dropWhile isJsSpace).reverse⟩

/-- The decimal-digit prefix of a character list, as a number: `none` when
there is no leading digit (JavaScript `parseInt` returns `NaN` then). -/
def digitsToNat (cs : List Char) : Option Nat :=
  let ds := cs.takeWhile Char.isDigit
  if ds.isEmpty then none
  else some (ds.foldl (fun a c => a * 10 + (c.toNat - 48)) 0)

/-- JavaScript `parseInt(value, 10)`: skip leading whitespace, accept an
optional sign, read the longest decimal-digit prefix, ignore everything
after it; yield `NaN` (here `none`) when no digit was read. -/
def parseIntBase10 (s : String) : Option Int :=
  match s.toList.dropWhile isJsSpace with
  | '-' :: rest => (digitsToNat rest).map (fun n => -(n : Int))
  | '+' :: rest => (digitsToNat rest).map (fun n => (n : Int))
  | cs => (digitsToNat cs).map (fun n => (n : Int))

/-- `parsePort` (lines 14-19): default on `undefined` or the empty string;
otherwise parse (strings via `parseInt(..., 10)`) and keep the result only
when finite and in `1..65535`. -/
def parsePort : SettingVal → Nat
  | .undef => DEFAULT_PORT
  | .str s =>
    if s = "" then DEFAULT_PORT
    else
      match parseIntBase10 s with
      | none => DEFAULT_PORT
      | some n => if 0 < n ∧ n ≤ 65535 then n.toNat else DEFAULT_PORT
  | .num n => if 0 < n ∧ n ≤ 65535 then n.toNat else DEFAULT_PORT

/-- `s.host?.trim() || DEFAULT_HOST` (line 61): absent or
whitespace-only/empty (falsy after trim) falls back to the default. -/
def resolveHost : Option String → String
  | none => DEFAULT_HOST
  | some s => if jsTrim s = "" then DEFAULT_HOST else jsTrim s

/-- `s.authenticationKey?.trim() ?? ""` (line 63). -/
def resolveKey : Option String → String
  | none => ""
  | some s => jsTrim s

/-- The raw global settings (`GlobalSettings`, types.ts). -/
structure GlobalSettings where
  host : Option String
  port : SettingVal
  authenticationKey : Option String
  deriving DecidableEq, Repr

/-- The connection-relevant result of `applySettings` (lines 59-70). -/
structure ResolvedSettings where
  host : String
  port : Nat
  authenticationKey : String
  deriving DecidableEq, Repr

/-- `applySettings` (lines 59-70), restricted to the values it resolves. -/
def applySettings (s : GlobalSettings) : ResolvedSettings :=
  { host := resolveHost s.host
    port := parsePort s.port
    authenticationKey := resolveKey s.authenticationKey }

/-- Modelled from the claim's words: the integer a configuration string
denotes when the whole (trimmed) string is an optionally signed decimal
numeral, `none` when it is "non-numeric". -/
def claimNumeralVal (s : String) : Option Int :=
  let cs := (jsTrim s).toList
  let sb : Bool × List Char :=
    match cs with
    | '-' :: rest => (true, rest)
    | '+' :: rest => (false, rest)
    | _ => (false, cs)
  if sb.2.isEmpty || !sb.2.all Char.isDigit then none
  else
    let v : Nat := sb.2.foldl (fun a c => a * 10 + (c.toNat - 48)) 0
    some (if sb.1 then -(v : Int) else (v : Int))

/-- Modelled from the claim's words: a configuration string is "numeric"
exactly when it denotes an integer as a whole. -/
def claimNumeric (s : String) : Bool :=
  (claimNumeralVal s).isSome

/-- Modelled from the claim's words: the port defaults to 9595 when the
value is absent, empty, non-numeric, or outside 1–65535, and is the given
port otherwise. -/
def claimResolvePort : SettingVal → Nat
  | .undef => DEFAULT_PORT
  | .str s =>
    if s = "" ∨ claimNumeric s = false then DEFAULT_PORT
    else
      match claimNumeralVal s with
      | some n => if 0 < n ∧ n ≤ 65535 then n.toNat else DEFAULT_PORT
      | none => DEFAULT_PORT
  | .num n => if 0 < n ∧ n ≤ 65535 then n.toNat else DEFAULT_PORT

/-! ## Concrete fixtures used by witnesses -/

/-- An inbound failure frame: `{"success": false}`. -/
def failureMsg : Option RawMsg :=
  some { success := some (.jbool false) }

/-- A manager with an open session and a configured shared secret. -/
def mOpen : Manager :=
  { initManager with ws := some SockState.opened, authenticationKey := "sekrit" }

/-- A manager with an open session and an outstanding liveness probe. -/
def mPing : Manager :=
  { initManager with ws := some SockState.opened, awaitingPong := true }

/-- A disconnected manager still holding a registered failure callback. -/
def mPend : Manager :=
  { initManager with pendingErrorCallback := some 7 }

lemma closeBody_fst_ws (m : Manager) : (closeBody m).1.ws = none := by
  unfold closeBody stopPing stopStableTimer setConnected scheduleReconnect
  by_cases hc : m.state.connected <;> by_cases hi : m.intentionalClose <;>
    simp [hc, hi, setDisconnectedState_fst]

lemma closeBody_fst_connected (m : Manager) : (closeBody m).1.state.connected = false := by
  unfold closeBody stopPing stopStableTimer setConnected scheduleReconnect
  by_cases hc : m.state.connected <;> by_cases hi : m.intentionalClose <;>
    simp [hc, hi, setDisconnectedState_fst]

/-! ## The claims -/

/-- Claim C1: for every sequence of operations on the state manager
(connect, disconnect, close events, inbound frames, and the remaining
handler and timer events), whenever `connected` is false the fields
`inputMuted`, `outputMuted` and `recording` are all unknown (`null`). -/
theorem c1_disconnected_fields_unknown (ops : List Op)
    (h : (run ops).state.connected = false) :
    (run ops).state.inputMuted = none ∧ (run ops).state.outputMuted = none ∧
      (run ops).state.recording = none :=
  (inv_run ops).1 h

theorem c1_disconnected_fields_unknown_witness :
    (run [.connect, .openEvt, .closeEvt]).state.connected = false ∧
      ((run [.connect, .openEvt, .closeEvt]).state.inputMuted = none ∧
        (run [.connect, .openEvt, .closeEvt]).state.outputMuted = none ∧
        (run [.connect, .openEvt, .closeEvt]).state.recording = none) :=
  ⟨by decide, c1_disconnected_fields_unknown [.connect, .openEvt, .closeEvt] (by decide)⟩

/-- Claim C2: the reconnect delay for `n` prior failed attempts is
`min(1000ms * 2^n, 30000ms)`; scheduling a reconnect increments the
attempt counter (so the delay is monotonically non-decreasing across
consecutive failures up to the 30s ceiling), and the stability timer
firing after the 30s window resets the counter so the next delay is the
base again. -/
theorem c2_backoff_delay :
    (∀ n : Nat, reconnectDelay n = min (1000 * 2 ^ n) 30000) ∧
    (∀ m : Manager, (scheduleReconnect m).2 = reconnectDelay m.backoffAttempts ∧
      (scheduleReconnect m).1.backoffAttempts = m.backoffAttempts + 1 ∧
      (scheduleReconnect m).1.reconnectTimer = true) ∧
    (∀ a b : Nat, a ≤ b → reconnectDelay a ≤ reconnectDelay b) ∧
    (∀ m : Manager, (stableTimerFire m).backoffAttempts = 0 ∧
      reconnectDelay (stableTimerFire m).backoffAttempts = RECONNECT_BASE_MS) ∧
    STABLE_THRESHOLD_MS = 30000 := by
  refine ⟨fun n => rfl, fun m => ⟨rfl, rfl, rfl⟩, fun a b h => ?_,
    fun m => ⟨rfl, (by decide : reconnectDelay 0 = RECONNECT_BASE_MS)⟩, rfl⟩
  unfold reconnectDelay
  exact min_le_min
    (Nat.mul_le_mul_left _ (Nat.pow_le_pow_right (by norm_num) h)) (le_refl _)

theorem c2_backoff_delay_witness :
    (2 : Nat) ≤ 5 ∧ reconnectDelay 2 ≤ reconnectDelay 5 :=
  ⟨by decide, c2_backoff_delay.2.2.1 2 5 (by decide)⟩

/-- Claim C3: `send` returns false and transmits nothing whenever the
socket is not open; otherwise it serializes the command, merges in the
`key` field exactly when the shared secret is non-empty, registers the
callback, transmits exactly one frame, and returns true. -/
theorem c3_send_contract (m : Manager) (cmd : BvcCommand) (onError : Option Nat) :
    (m.ws ≠ some SockState.opened → send m cmd onError = (m, false, [])) ∧
    (m.ws = some SockState.opened →
      send m cmd onError =
        ({ m with pendingErrorCallback := onError }, true,
          [{ cmd := cmd
             key := if m.authenticationKey = "" then none
                    else some m.authenticationKey }])) := by
  constructor <;> intro h <;> simp [send, h]

theorem c3_send_contract_witness :
    (initManager.ws ≠ some SockState.opened ∧
      send initManager .record none = (initManager, false, [])) ∧
    (mOpen.ws = some SockState.opened ∧
      send mOpen .record (some 2) =
        ({ mOpen with pendingErrorCallback := some 2 }, true,
          [{ cmd := .record, key := some "sekrit" }])) :=
  ⟨⟨by decide, (c3_send_contract initManager .record none).1 (by decide)⟩,
   ⟨rfl, by
      have h := (c3_send_contract mOpen .record (some 2)).2 rfl
      rw [h]
      decide⟩⟩

/-- Claim C4: a failure response invokes at most one failure callback —
exactly the currently registered (most recent) one — exactly once and then
clears it; after two sends before any response, the first send's callback
has been replaced, so the failure frame invokes only the second one and a
further failure frame invokes nothing. -/
theorem c4_failure_callback_once (m : Manager) (c1 c2 : BvcCommand) (cb1 cb2 : Nat)
    (h : m.ws = some SockState.opened) :
    (∀ (mm : Manager) (r : RawMsg), r.success = some (.jbool false) →
      (onMessage mm (some r)).2.2 = mm.pendingErrorCallback.toList ∧
        (onMessage mm (some r)).2.2.length ≤ 1 ∧
        (onMessage mm (some r)).1.pendingErrorCallback = none) ∧
    (send m c1 (some cb1)).2.1 = true ∧
    (send (send m c1 (some cb1)).1 c2 (some cb2)).2.1 = true ∧
    (onMessage (send (send m c1 (some cb1)).1 c2 (some cb2)).1 failureMsg).2.2 = [cb2] ∧
    (onMessage
      (onMessage (send (send m c1 (some cb1)).1 c2 (some cb2)).1 failureMsg).1
      failureMsg).2.2 = [] := by
  constructor
  · intro mm r hr
    refine ⟨?_, ?_, ?_⟩ <;> simp [onMessage, hr]
    cases mm.pendingErrorCallback <;> simp
  · refine ⟨?_, ?_, ?_, ?_⟩ <;> simp [onMessage, send, failureMsg, h]

theorem c4_failure_callback_once_witness :
    mOpen.ws = some SockState.opened ∧
      (onMessage (send (send mOpen .record (some 1)).1 (.mute .input) (some 2)).1
        failureMsg).2.2 = [2] :=
  ⟨rfl, (c4_failure_callback_once mOpen .record (.mute .input) 1 2 rfl).2.2.2.1⟩

/-- Claim C5: inbound payloads are matched against the recognized shapes in
priority order — pong acknowledgment, single-device mute delta, full
snapshot, bare recording boolean — and exactly the first match is applied,
anything else being ignored; in particular the snapshot
`{muted: false, deafened: true, recording: false}` against prior state
`{true, true, true}` emits `inputMuteChanged(false)` and
`recordingChanged(false)` but no `outputMuteChanged`. -/
theorem c5_inbound_shape_priority :
    (∀ (st : BvcState) (d : InData), handleMessage st d = applyShape st (classify d)) ∧
    handleMessage
        { connected := true, inputMuted := some true, outputMuted := some true,
          recording := some true }
        { muted := some (.jbool false), deafened := some (.jbool true),
          recording := some (.jbool false) } =
      ({ connected := true, inputMuted := some false, outputMuted := some true,
          recording := some false },
        [.inputMuteChanged (some false), .recordingChanged (some false)]) :=
  ⟨handleMessage_eq_applyShape, by decide⟩

/-- Claim C6: applying the same inbound delta twice in a row emits
notifications only on the first application and leaves the state equal
after both applications. -/
theorem c6_delta_idempotent (st : BvcState) (d : InData) :
    handleMessage (handleMessage st d).1 d = ((handleMessage st d).1, []) := by
  rw [handleMessage_eq_applyShape st d,
    handleMessage_eq_applyShape (applyShape st (classify d)).1 d]
  exact applyShape_idem st (classify d)

/-- Claim C7: at a heartbeat tick (the fixed 15s interval) of an open
session, an outstanding probe forces immediate termination — whose close
event completes the Closed transition (socket gone, `connected` false) —
while otherwise a new probe is sent and the outstanding flag set; a pong
received at any time clears the flag. -/
theorem c7_heartbeat (m : Manager) (h : m.ws = some SockState.opened) :
    PING_INTERVAL_MS = 15000 ∧
    (m.awaitingPong = true → pingTick m = (m, .terminated) ∧
      (closeStep (pingTick m).1).1.ws = none ∧
      (closeStep (pingTick m).1).1.state.connected = false) ∧
    (m.awaitingPong = false → pingTick m = ({ m with awaitingPong := true }, .pingSent)) ∧
    (∀ mm : Manager, (pongStep mm).awaitingPong = false) := by
  refine ⟨rfl, fun hp => ⟨?_, ?_, ?_⟩, fun hp => ?_, fun mm => rfl⟩
  · simp [pingTick, hp]
  · simp only [pingTick, hp, if_pos, closeStep, h]
    exact closeBody_fst_ws m
  · simp only [pingTick, hp, if_pos, closeStep, h]
    exact closeBody_fst_connected m
  · simp [pingTick, hp, h]

theorem c7_heartbeat_witness :
    mPing.ws = some SockState.opened ∧ mPing.awaitingPong = true ∧
      (pingTick mPing = (mPing, .terminated) ∧
        (closeStep (pingTick mPing).1).1.ws = none ∧
        (closeStep (pingTick mPing).1).1.state.connected = false) :=
  ⟨rfl, rfl, (c7_heartbeat mPing rfl).2.1 rfl⟩

/-- Claim C8 (refuted, code bug): `connect` does set `intentionalClose`
while terminating a superseded socket, but then resets it to `false` in
the same synchronous call (line 104) — before the terminated socket's
`close` event, which is emitted asynchronously, can run.  When that close
event is delivered, the handler therefore observes
`intentionalClose = false` and schedules a reconnect, contradicting the
claim that a superseded session's closure never does.  Trace: `connect`
creating a session, a second `connect` superseding it, then the delivery
of the superseded socket's close event. -/
theorem c8_superseded_close_schedules_reconnect :
    (run [.connect, .connect]).intentionalClose = false ∧
    (run [.connect, .connect]).ws = some SockState.connecting ∧
    (run [.connect, .connect, .closeEvt]).reconnectTimer = true ∧
    (run [.connect, .connect, .closeEvt]).backoffAttempts = 1 := by
  decide

/-- Claim C9 as stated is refuted: the port value `"80abc"` is not a
numeral ("non-numeric"), so the claim resolves it to the default 9595, but
`parseInt(value, 10)` reads the leading digits and the code keeps port 80. -/
theorem c9_counterexample :
    parsePort (.str "80abc") = 80 ∧ claimResolvePort (.str "80abc") = DEFAULT_PORT ∧
      (80 : Nat) ≠ DEFAULT_PORT := by
  refine ⟨by decide, by decide, by decide⟩

/-- Claim C9 (amended): host defaults to 127.0.0.1 when absent or empty;
the port defaults to 9595 when absent, empty, or without a leading
(optionally signed) decimal-digit prefix under `parseInt(value, 10)`, or
when the parsed leading integer is outside 1–65535, and resolves to that
parsed leading integer otherwise; the secret defaults to empty; the
configuration `{host: "", port: "", secret: ""}` resolves to
`127.0.0.1:9595` and outgoing frames then carry no `key` field. -/
theorem c9_settings_resolution :
    resolveHost none = DEFAULT_HOST ∧ resolveHost (some "") = DEFAULT_HOST ∧
    parsePort .undef = DEFAULT_PORT ∧ parsePort (.str "") = DEFAULT_PORT ∧
    (∀ s, parseIntBase10 s = none → parsePort (.str s) = DEFAULT_PORT) ∧
    (∀ s n, parseIntBase10 s = some n → ¬(0 < n ∧ n ≤ 65535) →
      parsePort (.str s) = DEFAULT_PORT) ∧
    (∀ s n, parseIntBase10 s = some n → 0 < n → n ≤ 65535 →
      parsePort (.str s) = n.toNat) ∧
    resolveKey none = "" ∧
    applySettings { host := some "", port := .str "", authenticationKey := some "" } =
      { host := "127.0.0.1", port := 9595, authenticationKey := "" } ∧
    (send { initManager with ws := some SockState.opened } .state none).2.2 =
      [{ cmd := .state, key := none }] := by
  refine ⟨rfl, by decide, rfl, by decide, ?_, ?_, ?_, rfl, by decide, by decide⟩
  · intro s hs
    by_cases h0 : s = ""
    · simp [parsePort, h0]
    · simp [parsePort, h0, hs]
  · intro s n hs hrange
    by_cases h0 : s = ""
    · simp [parsePort, h0]
    · simp [parsePort, h0, hs, hrange]
  · intro s n hs h1 h2
    have h0 : s ≠ "" := by
      intro he
      subst he
      rw [show parseIntBase10 "" = none from by decide] at hs
      cases hs
    simp [parsePort, h0, hs, h1, h2]

theorem c9_settings_resolution_witness :
    parseIntBase10 "abc" = none ∧ parsePort (.str "abc") = DEFAULT_PORT :=
  ⟨by decide, c9_settings_resolution.2.2.2.2.1 "abc" (by decide)⟩

/-- Claim C10: when `send` returns false because no session is open, the
whole manager — in particular the pending failure callback and the state
snapshot — is left unchanged, and a subsequent failure response still
invokes the previously registered callback. -/
theorem c10_failed_send_preserves_callback (m : Manager) (cmd : BvcCommand)
    (onError : Option Nat) (h : m.ws ≠ some SockState.opened) :
    (send m cmd onError).1 = m ∧ (send m cmd onError).2.1 = false ∧
      (onMessage (send m cmd onError).1 failureMsg).2.2 =
        m.pendingErrorCallback.toList := by
  refine ⟨?_, ?_, ?_⟩ <;> simp [send, onMessage, failureMsg, h]

theorem c10_failed_send_preserves_callback_witness :
    mPend.ws ≠ some SockState.opened ∧
      (send mPend .record (some 9)).1 = mPend ∧
      (onMessage (send mPend .record (some 9)).1 failureMsg).2.2 = [7] :=
  ⟨by decide,
   (c10_failed_send_preserves_callback mPend .record (some 9) (by decide)).1,
   ((c10_failed_send_preserves_callback mPend .record (some 9) (by decide)).2.2).trans
     (by decide)⟩

end Bvc
